import Mathlib

/-!
Verification of the task-store core of the ToDoListManager repository
(`src/todo_list.py`): the `Task` record, the `ToDoListManager` store, and
their persistence to a JSON backing file.

Embedding conventions:
* Python's `datetime.now().isoformat()` is modelled by threading an explicit
  `now : String` argument through every operation that stamps a time.
* The backing file is modelled by its content (`FileState`), since the store
  owns the file exclusively and the path only addresses it.  `json.dump`
  followed by `json.load` is the identity on the value domain used here, so
  a successfully parsed file is represented directly by its JSON value.
* Python exceptions are modelled with `Except PyError`.
* Python is dynamically typed; the embedding types `Task` fields and
  `next_id` per the repository's data model.  A JSON leaf of an unexpected
  type (e.g. an integer `title`) is mapped to the artificial error
  `PyError.badLeafType`; CPython would instead store the ill-typed value and
  possibly fail later.  No theorem below depends on inputs that reach
  `badLeafType`.
-/

namespace Todo

/-- Python exception kinds that the code in `todo_list.py` can raise or
catch.  `badLeafType` is an artifact of the typed embedding (see header). -/
inductive PyError where
  | keyError
  | attributeError
  | typeError
  | valueError
  | badLeafType
deriving DecidableEq, Repr

/-- JSON values, the domain of `json.load` / `json.dump`.  An object is a
key-ordered association list; `json.load` produces unique keys. -/
inductive Json where
  | null
  | bool (b : Bool)
  | int (n : Int)
  | str (s : String)
  | arr (elems : List Json)
  | obj (fields : List (String × Json))

/-- First-match association lookup on a JSON object's fields (Python dict
lookup; keys are unique in every object built or parsed here). -/
def jsonLookup (key : String) : List (String × Json) → Option Json
  | [] => none
  | (k, v) :: rest => if k = key then some v else jsonLookup key rest

/-- Python `data[key]`: `KeyError` when the key is missing from a dict,
`TypeError` when `data` is not a dict (string/list/int subscripting with a
string key). -/
def pySubscript (j : Json) (key : String) : Except PyError Json :=
  match j with
  | .obj fields =>
    match jsonLookup key fields with
    | some v => .ok v
    | none => .error .keyError
  | _ => .error .typeError

/-- Python `data.get(key, default)`: `AttributeError` when `data` is not a
dict (no `.get` attribute). -/
def pyGet (j : Json) (key : String) (default : Json) : Except PyError Json :=
  match j with
  | .obj fields =>
    match jsonLookup key fields with
    | some v => .ok v
    | none => .ok default
  | _ => .error .attributeError

/-- Python iteration (list comprehension source): lists yield elements,
strings yield their one-character strings, dicts yield their keys, other
values raise `TypeError`. -/
def pyIter (j : Json) : Except PyError (List Json) :=
  match j with
  | .arr xs => .ok xs
  | .str s => .ok (s.toList.map fun c => Json.str (String.singleton c))
  | .obj fields => .ok (fields.map fun kv => Json.str kv.1)
  | _ => .error .typeError

/-- ASCII whitespace stripped by Python `int(str)` (the embedding restricts
Python's full Unicode whitespace set to ASCII). -/
def pyIsSpace (c : Char) : Bool :=
  c = ' ' || c = '\t' || c = '\n' || c = '\r' || c = '\x0b' || c = '\x0c'

/-- Digit run with CPython underscore grouping: underscores are legal only
between two digits.  The flag records whether the previous character was a
digit.  Returns the value, or `none` when the run is not a valid int
literal body (this is where `int(str)` raises `ValueError`). -/
def pyDigitsAux (acc : Nat) (prevDigit : Bool) : List Char → Option Nat
  | [] => if prevDigit then some acc else none
  | c :: cs =>
    if c.isDigit then pyDigitsAux (acc * 10 + (c.toNat - 48)) true cs
    else if c = '_' then
      if prevDigit then pyDigitsAux acc false cs else none
    else none

/-- Python `int(s)` on a string: strip surrounding whitespace, optional
single sign, nonempty digit run (ASCII digits; Unicode digits are outside
the embedding).  `none` models `ValueError`. -/
def pyIntOfString (s : String) : Option Int :=
  let cs := (((s.toList.dropWhile pyIsSpace).reverse.dropWhile pyIsSpace).reverse)
  match cs with
  | '+' :: rest => (pyDigitsAux 0 false rest).map fun n => (n : Int)
  | '-' :: rest => (pyDigitsAux 0 false rest).map fun n => -(n : Int)
  | rest => (pyDigitsAux 0 false rest).map fun n => (n : Int)

/-- The `Task` record of `todo_list.py`.  `id` is `None` before assignment;
`completed_at` is `None` until completion.  Timestamps are opaque strings. -/
structure Task where
  id : Option Int
  title : String
  description : String
  priority : String
  due_date : Option String
  status : String
  created_at : String
  completed_at : Option String
deriving DecidableEq, Repr

/-- `Task.__init__`: fresh pending task, `created_at` stamped with `now`. -/
def Task.init (title : String) (description : String) (priority : String)
    (due_date : Option String) (now : String) : Task :=
  { id := none, title := title, description := description,
    priority := priority, due_date := due_date, status := "pending",
    created_at := now, completed_at := none }

/-- `Task.mark_completed`: set status and stamp `completed_at` with `now`. -/
def Task.mark_completed (t : Task) (now : String) : Task :=
  { t with status := "completed", completed_at := some now }

def jsonOfOptInt : Option Int → Json
  | none => .null
  | some n => .int n

def jsonOfOptStr : Option String → Json
  | none => .null
  | some s => .str s

/-- `Task.to_dict`: the serialized mapping, all eight fields by name. -/
def Task.to_dict (t : Task) : Json :=
  .obj [("id", jsonOfOptInt t.id),
        ("title", .str t.title),
        ("description", .str t.description),
        ("priority", .str t.priority),
        ("due_date", jsonOfOptStr t.due_date),
        ("status", .str t.status),
        ("created_at", .str t.created_at),
        ("completed_at", jsonOfOptStr t.completed_at)]

/-- Typed read of a leaf expected to be an int (see header on
`badLeafType`). -/
def asInt : Json → Except PyError Int
  | .int n => .ok n
  | _ => .error .badLeafType

/-- Typed read of a leaf expected to be a string. -/
def asStr : Json → Except PyError String
  | .str s => .ok s
  | _ => .error .badLeafType

/-- Typed read of a leaf expected to be an int or null. -/
def asOptInt : Json → Except PyError (Option Int)
  | .null => .ok none
  | .int n => .ok (some n)
  | _ => .error .badLeafType

/-- Typed read of a leaf expected to be a string or null. -/
def asOptStr : Json → Except PyError (Option String)
  | .null => .ok none
  | .str s => .ok (some s)
  | _ => .error .badLeafType

/-- `Task.from_dict`: `title` is required (`data['title']`, so `KeyError`
when absent, `TypeError` when `data` is not a dict), every other field is
read with `.get` and the stated default; absent `created_at` defaults to
the current time `now`. -/
def Task.from_dict (data : Json) (now : String) : Except PyError Task := do
  let titleJ ← pySubscript data "title"
  let title ← asStr titleJ
  let descriptionJ ← pyGet data "description" (.str "")
  let description ← asStr descriptionJ
  let priorityJ ← pyGet data "priority" (.str "medium")
  let priority ← asStr priorityJ
  let dueJ ← pyGet data "due_date" .null
  let due_date ← asOptStr dueJ
  let idJ ← pyGet data "id" .null
  let id ← asOptInt idJ
  let statusJ ← pyGet data "status" (.str "pending")
  let status ← asStr statusJ
  let createdJ ← pyGet data "created_at" (.str now)
  let created_at ← asStr createdJ
  let completedJ ← pyGet data "completed_at" .null
  let completed_at ← asOptStr completedJ
  return { id := id, title := title, description := description,
           priority := priority, due_date := due_date, status := status,
           created_at := created_at, completed_at := completed_at }

/-- Priority-glyph table of `Task.__str__`; `none` models the `KeyError` a
dict-literal lookup raises on an unknown priority. -/
def prioritySymbol (p : String) : Option String :=
  if p = "low" then some "●"
  else if p = "medium" then some "●●"
  else if p = "high" then some "●●●"
  else none

/-- Python `str(x)` for the `id` slot of the display f-string: `None`
renders as the text "None". -/
def idRepr : Option Int → String
  | none => "None"
  | some n => toString n

/-- `Task.__str__`: completion glyph, id in brackets, title, priority
glyphs; raises `KeyError` on a priority outside low/medium/high. -/
def Task.pyStr (t : Task) : Except PyError String :=
  let status_symbol := if t.status = "completed" then "✓" else "○"
  match prioritySymbol t.priority with
  | some priority_symbol =>
    .ok (status_symbol ++ " [" ++ idRepr t.id ++ "] " ++ t.title ++ " " ++ priority_symbol)
  | none => .error .keyError

/-- State of the backing file: missing, present but not valid JSON
(`json.load` raises `JSONDecodeError`), or present with parsed value `j`. -/
inductive FileState where
  | absent
  | unparseable
  | parsed (j : Json)

/-- The store: ordered task list, id counter, and the backing file's
content (the path merely addresses the file, which the store owns). -/
structure ToDoListManager where
  next_id : Int
  tasks : List Task
  file : FileState

/-- The JSON value `save_tasks` writes: a mapping of `next_id` and the
serialized task list. -/
def saveData (next_id : Int) (tasks : List Task) : Json :=
  .obj [("next_id", .int next_id), ("tasks", .arr (tasks.map Task.to_dict))]

/-- `save_tasks`: rewrite the backing file in full with the current state. -/
def ToDoListManager.save_tasks (m : ToDoListManager) : ToDoListManager :=
  { m with file := .parsed (saveData m.next_id m.tasks) }

/-- The list comprehension `[Task.from_dict(d) for d in ...]`: builds the
tasks left to right, propagating the first exception. -/
def fromDictList (now : String) : List Json → Except PyError (List Task)
  | [] => .ok []
  | j :: rest => do
    let t ← Task.from_dict j now
    let ts ← fromDictList now rest
    return t :: ts

/-- Body of the `try` block of `load_tasks`: read `next_id` (default 1)
and rebuild the task list (default empty) via `Task.from_dict`. -/
def loadBody (j : Json) (now : String) : Except PyError (Int × List Task) := do
  let nidJ ← pyGet j "next_id" (.int 1)
  let nid ← asInt nidJ
  let tasksJ ← pyGet j "tasks" (.arr [])
  let items ← pyIter tasksJ
  let tasks ← fromDictList now items
  return (nid, tasks)

/-- `load_tasks` as run by `__init__`: a missing file keeps the fresh
defaults; `JSONDecodeError` (unparseable file) and `KeyError` are caught
and reset to the fresh defaults; any other exception propagates. -/
def load_tasks (file : FileState) (now : String) : Except PyError (Int × List Task) :=
  match file with
  | .absent => .ok (1, [])
  | .unparseable => .ok (1, [])
  | .parsed j =>
    match loadBody j now with
    | .ok r => .ok r
    | .error .keyError => .ok (1, [])
    | .error e => .error e

/-- `ToDoListManager.__init__`: construct against a backing file and
immediately load it (no save on construction). -/
def ToDoListManager.construct (file : FileState) (now : String) :
    Except PyError ToDoListManager := do
  let r ← load_tasks file now
  return { next_id := r.1, tasks := r.2, file := file }

/-- The store `__init__` produces when the backing file does not exist. -/
def ToDoListManager.fresh : ToDoListManager :=
  { next_id := 1, tasks := [], file := .absent }

/-- `add_task`: build the task, assign `next_id`, bump the counter, append,
persist, return the new task. -/
def ToDoListManager.add_task (m : ToDoListManager) (title : String)
    (description : String) (priority : String) (due_date : Option String)
    (now : String) : ToDoListManager × Task :=
  let task := { Task.init title description priority due_date now with id := some m.next_id }
  let m := { m with next_id := m.next_id + 1, tasks := m.tasks ++ [task] }
  (m.save_tasks, task)

/-- `list_tasks`: `if status_filter:` is Python truthiness, so both `None`
and the empty string return a copy of the whole list; a truthy filter
keeps exactly the tasks with equal status. -/
def ToDoListManager.list_tasks (m : ToDoListManager)
    (status_filter : Option String) : List Task :=
  match status_filter with
  | some s => if s = "" then m.tasks else m.tasks.filter fun t => t.status == s
  | none => m.tasks

/-- `get_task_by_id`: first task whose `id` equals the argument (`None`
ids compare unequal to every int, as in Python). -/
def ToDoListManager.get_task_by_id (m : ToDoListManager) (task_id : Int) :
    Option Task :=
  m.tasks.find? fun t => t.id == some task_id

/-- `get_task_by_title`: first task whose lowercased title equals the
lowercased argument (ASCII lowercasing; full Unicode `str.lower` is outside
the embedding). -/
def ToDoListManager.get_task_by_title (m : ToDoListManager) (title : String) :
    Option Task :=
  m.tasks.find? fun t => t.title.toLower == title.toLower

/-- The caller-supplied identifier of `mark_task_completed`, a dynamically
typed Python value.  `int` covers bools too (Python `bool` is an `int`
subclass); `pynone`, `pyfloat` and `pyother` are values that are instances
of neither `int` nor `str`, which the code's `isinstance` tests all skip. -/
inductive PyIdent where
  | int (n : Int)
  | str (s : String)
  | pynone
  | pyfloat
  | pyother

/-- Identifier resolution of `mark_task_completed` as a search predicate:
an `int` looks up by id; a `str` is first fed to `int()` (success looks up
by the parsed id, `ValueError` falls back to case-insensitive title); any
other type matches nothing (`task` stays `None`).  The predicates are
those of `get_task_by_id` / `get_task_by_title`. -/
def ToDoListManager.resolvePred : PyIdent → Option (Task → Bool)
  | .int n => some fun t => t.id == some n
  | .str s =>
    match pyIntOfString s with
    | some task_id => some fun t => t.id == some task_id
    | none => some fun t => t.title.toLower == s.toLower
  | _ => none

/-- In-place mutation of the found task: Python mutates the object the
lookup returned, i.e. the first task satisfying the lookup predicate. -/
def markFirst (p : Task → Bool) (now : String) : List Task → List Task
  | [] => []
  | t :: ts => if p t then t.mark_completed now :: ts else t :: markFirst p now ts

/-- `mark_task_completed`: resolve the identifier; when a task is found,
mark it completed, persist, and return `True`; otherwise return `False`
with nothing written. -/
def ToDoListManager.mark_task_completed (m : ToDoListManager)
    (identifier : PyIdent) (now : String) : ToDoListManager × Bool :=
  match ToDoListManager.resolvePred identifier with
  | some p =>
    if (m.tasks.find? p).isSome then
      (ToDoListManager.save_tasks { m with tasks := markFirst p now m.tasks }, true)
    else (m, false)
  | none => (m, false)

/-- `clear_all_tasks`: empty the list, reset the counter to 1, persist. -/
def ToDoListManager.clear_all_tasks (m : ToDoListManager) : ToDoListManager :=
  ToDoListManager.save_tasks { m with tasks := [], next_id := 1 }

/-- `is_empty`. -/
def ToDoListManager.is_empty (m : ToDoListManager) : Bool :=
  m.tasks.length == 0

/-- `count_tasks`: same Python truthiness as `list_tasks` (a `None` or
empty-string status counts everything). -/
def ToDoListManager.count_tasks (m : ToDoListManager) (status : Option String) : Nat :=
  match status with
  | some s => if s = "" then m.tasks.length else (m.tasks.filter fun t => t.status == s).length
  | none => m.tasks.length

/-- `True` exactly when the identifier is an instance of `int` or `str`
(the only two branches of the `isinstance` dispatch). -/
def PyIdent.isIntOrStr : PyIdent → Bool
  | .int _ => true
  | .str _ => true
  | _ => false

/-- Claim C5: `clear_all_tasks` empties the collection and resets
`next_id` to 1, so a cleared store's `is_empty` is always `true` and the
next `add_task` after a clear assigns id 1. -/
theorem C5_clear_resets (m : ToDoListManager) (title description priority : String)
    (due_date : Option String) (now : String) :
    m.clear_all_tasks.tasks = [] ∧
    m.clear_all_tasks.next_id = 1 ∧
    m.clear_all_tasks.is_empty = true ∧
    (m.clear_all_tasks.add_task title description priority due_date now).2.id = some 1 :=
  ⟨rfl, rfl, rfl, rfl⟩

/-- Claim C9: `mark_task_completed` with an identifier that is neither an
`int` nor a `str` (e.g. `None` or a float) returns `False`, raises
nothing, and leaves the whole store — tasks, counter, and backing file —
unchanged. -/
theorem C9_mark_non_int_str (m : ToDoListManager) (identifier : PyIdent)
    (now : String) (h : identifier.isIntOrStr = false) :
    m.mark_task_completed identifier now = (m, false) := by
  cases identifier <;>
    simp_all [PyIdent.isIntOrStr, ToDoListManager.mark_task_completed,
      ToDoListManager.resolvePred]

/-- Witness for C9 at the concrete identifier `None` on a one-task store. -/
theorem C9_mark_non_int_str_witness :
    PyIdent.isIntOrStr .pynone = false ∧
    ((ToDoListManager.fresh.add_task "a" "" "medium" none "t").1.mark_task_completed
        .pynone "t2" =
      ((ToDoListManager.fresh.add_task "a" "" "medium" none "t").1, false)) :=
  ⟨rfl, C9_mark_non_int_str _ _ _ rfl⟩

/-- Claim C10: for every status argument (including `None` and values
outside pending/completed), `count_tasks` equals the length of
`list_tasks` with the same filter — both use the same truthiness test and
the same equality on `status`. -/
theorem C10_count_eq_list_length (m : ToDoListManager) (status : Option String) :
    m.count_tasks status = (m.list_tasks status).length := by
  cases status with
  | none => rfl
  | some s =>
    by_cases h : s = "" <;>
      simp [ToDoListManager.count_tasks, ToDoListManager.list_tasks, h]

/-- Claim C8: the display form is the completion glyph, the id in
brackets, the title, and a priority glyph run of length 1/2/3 for
low/medium/high; it raises `KeyError` exactly when the priority is
outside those three values. -/
theorem C8_display_form (t : Task) :
    ((t.priority = "low" ∨ t.priority = "medium" ∨ t.priority = "high") →
      ∃ g, prioritySymbol t.priority = some g ∧
        t.pyStr = .ok ((if t.status = "completed" then "✓" else "○") ++
          " [" ++ idRepr t.id ++ "] " ++ t.title ++ " " ++ g) ∧
        g.length = (if t.priority = "low" then 1
          else if t.priority = "medium" then 2 else 3)) ∧
    (¬(t.priority = "low" ∨ t.priority = "medium" ∨ t.priority = "high") →
      t.pyStr = .error .keyError) := by
  constructor
  · rintro (h | h | h)
    · exact ⟨"●", by rw [h]; rfl, by simp [Task.pyStr, prioritySymbol, h],
        by rw [h]; decide⟩
    · exact ⟨"●●", by rw [h]; rfl, by simp [Task.pyStr, prioritySymbol, h],
        by rw [h]; decide⟩
    · exact ⟨"●●●", by rw [h]; rfl, by simp [Task.pyStr, prioritySymbol, h],
        by rw [h]; decide⟩
  · intro h
    simp only [not_or] at h
    obtain ⟨h1, h2, h3⟩ := h
    simp [Task.pyStr, prioritySymbol, h1, h2, h3]

/-- Witness for C8 at a concrete high-priority pending task. -/
theorem C8_display_form_witness :
    ∃ g, prioritySymbol (Task.init "walk dog" "" "high" none "t0").priority = some g ∧
      (Task.init "walk dog" "" "high" none "t0").pyStr =
        .ok ((if (Task.init "walk dog" "" "high" none "t0").status = "completed"
            then "✓" else "○") ++
          " [" ++ idRepr (Task.init "walk dog" "" "high" none "t0").id ++ "] " ++
          (Task.init "walk dog" "" "high" none "t0").title ++ " " ++ g) ∧
      g.length = (if (Task.init "walk dog" "" "high" none "t0").priority = "low" then 1
        else if (Task.init "walk dog" "" "high" none "t0").priority = "medium" then 2
        else 3) :=
  (C8_display_form _).1 (Or.inr (Or.inr rfl))

/-- Counterexample to claim C6 as stated: the empty string is a given,
non-`None` filter value matching no valid status, yet `list_tasks`
returns the whole (nonempty) list rather than the empty sequence, because
`if status_filter:` treats `""` as falsy. -/
theorem C6_empty_filter_counterexample :
    (ToDoListManager.fresh.add_task "a" "" "medium" none "t").1.list_tasks (some "") =
      (ToDoListManager.fresh.add_task "a" "" "medium" none "t").1.tasks ∧
    (ToDoListManager.fresh.add_task "a" "" "medium" none "t").1.tasks ≠ [] ∧
    (ToDoListManager.fresh.add_task "a" "" "medium" none "t").1.tasks.filter
      (fun t => t.status == "") = [] :=
  ⟨rfl, by decide, rfl⟩

/-- Claim C6 (amended): for every non-empty (truthy) filter value,
`list_tasks` returns exactly the tasks whose status equals it, in
insertion order, and an unmatched non-empty value yields the empty list
rather than an error; the falsy values `None` and `""` instead return a
copy of the whole list. -/
theorem C6_list_filter (m : ToDoListManager) (s : String) :
    (s ≠ "" → m.list_tasks (some s) = m.tasks.filter (fun t => t.status == s)) ∧
    m.list_tasks (some "") = m.tasks ∧
    m.list_tasks none = m.tasks ∧
    (s ≠ "" → (∀ t ∈ m.tasks, t.status ≠ s) → m.list_tasks (some s) = []) := by
  refine ⟨fun h => by simp [ToDoListManager.list_tasks, h], rfl, rfl, fun h hnone => ?_⟩
  simp only [ToDoListManager.list_tasks, if_neg h]
  rw [List.filter_eq_nil_iff]
  intro t ht
  simpa using hnone t ht

/-- Witness for C6 at a one-pending-task store and the unmatched filter
value "completed". -/
theorem C6_list_filter_witness :
    ("completed" : String) ≠ "" ∧
    (ToDoListManager.fresh.add_task "a" "" "medium" none "t").1.list_tasks
      (some "completed") = [] :=
  ⟨by decide,
   (C6_list_filter (ToDoListManager.fresh.add_task "a" "" "medium" none "t").1
      "completed").2.2.2 (by decide) (by decide)⟩

/-- Deserializing a serialized task restores every field exactly (the
`created_at` default never fires, so the result is independent of `now`). -/
theorem from_dict_to_dict (t : Task) (now : String) :
    Task.from_dict t.to_dict now = .ok t := by
  rcases t with ⟨id, title, description, priority, due_date, status, created_at, completed_at⟩
  rcases id with _ | n <;> rcases due_date with _ | d <;> rcases completed_at with _ | c <;> rfl

/-- Deserializing a serialized task list restores it exactly. -/
theorem fromDictList_map_to_dict (ts : List Task) (now : String) :
    fromDictList now (ts.map Task.to_dict) = .ok ts := by
  induction ts with
  | nil => rfl
  | cons t ts ih =>
    simp [fromDictList, from_dict_to_dict, ih, bind, Except.bind, pure, Except.pure]

/-- The `try`-block of `load_tasks` inverts `saveData` exactly. -/
theorem loadBody_saveData (next_id : Int) (ts : List Task) (now : String) :
    loadBody (saveData next_id ts) now = .ok (next_id, ts) := by
  simp [loadBody, saveData, pyGet, jsonLookup, asInt, pyIter, bind, Except.bind,
    fromDictList_map_to_dict, pure, Except.pure]

/-- Claim C4: after `save_tasks`, constructing a fresh store against the
same backing file succeeds and reproduces the saved store's ordered task
list (all fields) and `next_id` exactly. -/
theorem C4_save_load_round_trip (m : ToDoListManager) (now : String) :
    ToDoListManager.construct m.save_tasks.file now =
      .ok { next_id := m.next_id, tasks := m.tasks, file := m.save_tasks.file } := by
  simp [ToDoListManager.construct, ToDoListManager.save_tasks, load_tasks,
    loadBody_saveData, bind, Except.bind, pure, Except.pure]

/-- Counterexample to claim C3 as stated: a backing file holding the JSON
text "[]" parses as JSON but not as the expected structure, and
construction raises an uncaught `AttributeError` (`data.get` on a list)
instead of yielding a fresh empty store. -/
theorem C3_array_file_counterexample :
    ToDoListManager.construct (.parsed (.arr [])) "t" = .error .attributeError := rfl

/-- Claim C3 (amended): a backing file that is missing, fails JSON
parsing, or whose evaluation raises only `KeyError` (e.g. a task entry
missing the required `title` field) is discarded: construction raises no
exception and yields an empty task list with `next_id = 1`.  A file whose
parsed top level is not an object instead propagates an uncaught error. -/
theorem C3_fresh_start (file : FileState) (now : String)
    (h : file = .unparseable ∨ file = .absent ∨
      ∃ j, file = .parsed j ∧ loadBody j now = .error .keyError) :
    ToDoListManager.construct file now =
      .ok { next_id := 1, tasks := [], file := file } := by
  rcases h with h | h | ⟨j, hj, hload⟩
  · subst h; rfl
  · subst h; rfl
  · subst hj
    simp [ToDoListManager.construct, load_tasks, hload, bind, Except.bind, pure, Except.pure]

/-- Witness for C3 at a parsed file whose single task entry lacks the
required `title` field. -/
theorem C3_fresh_start_witness :
    (∃ j, FileState.parsed (Json.obj [("tasks", .arr [.obj [("status", .str "pending")]])]) =
        .parsed j ∧ loadBody j "t" = .error .keyError) ∧
    ToDoListManager.construct
        (.parsed (.obj [("tasks", .arr [.obj [("status", .str "pending")]])])) "t" =
      .ok { next_id := 1, tasks := [],
            file := .parsed (.obj [("tasks", .arr [.obj [("status", .str "pending")]])]) } :=
  ⟨⟨_, rfl, rfl⟩, C3_fresh_start _ _ (Or.inr (Or.inr ⟨_, rfl, rfl⟩))⟩

/-- One externally invokable mutating or lookup-and-mutate operation on a
live store (the operations interleavable with `clear` in the spec). -/
inductive Op where
  | add (title description priority : String) (due_date : Option String) (now : String)
  | mark (identifier : PyIdent) (now : String)
  | clear

/-- Apply one operation to the store (discarding the returned value). -/
def ToDoListManager.exec (m : ToDoListManager) : Op → ToDoListManager
  | .add title description priority due_date now =>
    (m.add_task title description priority due_date now).1
  | .mark identifier now => (m.mark_task_completed identifier now).1
  | .clear => m.clear_all_tasks

/-- Run a whole operation sequence left to right. -/
def runOps (m : ToDoListManager) : List Op → ToDoListManager
  | [] => m
  | op :: ops => runOps (m.exec op) ops

/-- The id sequence `[some 1, some 2, ..., some n]`. -/
def idSeq (n : Nat) : List (Option Int) :=
  (List.range n).map fun i => some ((i : Int) + 1)

theorem idSeq_succ (n : Nat) : idSeq (n + 1) = idSeq n ++ [some ((n : Int) + 1)] := by
  simp [idSeq, List.range_succ]

/-- The id-assignment invariant: the tasks currently held have ids exactly
1..n in insertion order, and the counter is n + 1. -/
def idsInv (m : ToDoListManager) : Prop :=
  m.tasks.map Task.id = idSeq m.tasks.length ∧
  m.next_id = m.tasks.length + 1

theorem markFirst_map_id (p : Task → Bool) (now : String) (ts : List Task) :
    (markFirst p now ts).map Task.id = ts.map Task.id := by
  induction ts with
  | nil => rfl
  | cons t ts ih =>
    by_cases h : p t <;> simp [markFirst, h, Task.mark_completed, ih]

theorem markFirst_length (p : Task → Bool) (now : String) (ts : List Task) :
    (markFirst p now ts).length = ts.length := by
  induction ts with
  | nil => rfl
  | cons t ts ih =>
    by_cases h : p t <;> simp [markFirst, h, ih]

theorem exec_preserves_idsInv (m : ToDoListManager) (op : Op) (h : idsInv m) :
    idsInv (m.exec op) := by
  obtain ⟨hmap, hnid⟩ := h
  cases op with
  | add title description priority due_date now =>
    have h1 : (m.exec (.add title description priority due_date now)).tasks =
        m.tasks ++
          [{ Task.init title description priority due_date now with id := some m.next_id }] :=
      rfl
    have h2 : (m.exec (.add title description priority due_date now)).next_id =
        m.next_id + 1 := rfl
    have h3 : ({ Task.init title description priority due_date now with
        id := some m.next_id } : Task).id = some m.next_id := rfl
    constructor
    · rw [h1, List.map_append, List.length_append, hmap]
      simp only [List.map_cons, List.map_nil, List.length_singleton, h3]
      rw [idSeq_succ, hnid]
    · rw [h2, h1, List.length_append, hnid]
      simp only [List.length_singleton]
      push_cast
      ring
  | mark identifier now =>
    simp only [ToDoListManager.exec, ToDoListManager.mark_task_completed]
    rcases hres : ToDoListManager.resolvePred identifier with _ | p
    · exact ⟨hmap, hnid⟩
    · by_cases hf : (m.tasks.find? p).isSome
      · simp only [hf, if_true]
        exact ⟨by simpa [ToDoListManager.save_tasks, markFirst_map_id,
            markFirst_length] using hmap,
          by simpa [ToDoListManager.save_tasks, markFirst_length] using hnid⟩
      · simp only [hf, if_false]
        exact ⟨hmap, hnid⟩
  | clear => exact ⟨rfl, rfl⟩

theorem runOps_preserves_idsInv (ops : List Op) (m : ToDoListManager)
    (h : idsInv m) : idsInv (runOps m ops) := by
  induction ops generalizing m with
  | nil => exact h
  | cons op ops ih => exact ih _ (exec_preserves_idsInv m op h)

/-- Claim C1 (amended): after any operation sequence on a store built
against a missing backing file, the ids of the tasks currently held are
exactly 1, 2, ..., n in insertion order — strictly increasing from 1 with
no gaps — and `next_id` is n + 1.  Because `clear_all_tasks` resets the
counter to 1, ids are reused by tasks added after a clear (the "never
reassigned" part of the original claim fails, see the counterexample). -/
theorem C1_ids_within_epoch (ops : List Op) :
    (runOps ToDoListManager.fresh ops).tasks.map Task.id =
      idSeq (runOps ToDoListManager.fresh ops).tasks.length ∧
    (runOps ToDoListManager.fresh ops).next_id =
      (runOps ToDoListManager.fresh ops).tasks.length + 1 :=
  runOps_preserves_idsInv ops ToDoListManager.fresh ⟨rfl, rfl⟩

/-- Counterexample to claim C1 as stated: add, clear, add assigns id 1 to
two distinct tasks of the same store instance, because `clear_all_tasks`
resets `next_id` to 1. -/
theorem C1_id_reuse_counterexample :
    (ToDoListManager.fresh.add_task "first" "" "medium" none "t1").2.id = some 1 ∧
    ((ToDoListManager.fresh.add_task "first" "" "medium" none "t1").1.clear_all_tasks.add_task
        "second" "" "medium" none "t2").2.id = some 1 ∧
    (ToDoListManager.fresh.add_task "first" "" "medium" none "t1").2 ≠
      ((ToDoListManager.fresh.add_task "first" "" "medium" none "t1").1.clear_all_tasks.add_task
        "second" "" "medium" none "t2").2 :=
  ⟨rfl, rfl, by decide⟩

/-- The completion invariant of one task: `completed_at` is non-null iff
`status == "completed"`. -/
def taskInv (t : Task) : Prop :=
  t.completed_at.isSome = true ↔ t.status = "completed"

/-- A freshly marked task satisfies the completion invariant. -/
theorem taskInv_mark_completed (t : Task) (now : String) :
    taskInv (t.mark_completed now) := by
  simp [taskInv, Task.mark_completed]

theorem markFirst_taskInv (p : Task → Bool) (now : String) (ts : List Task)
    (h : ∀ t ∈ ts, taskInv t) : ∀ t ∈ markFirst p now ts, taskInv t := by
  induction ts with
  | nil => simp [markFirst]
  | cons a as ih =>
    intro t ht
    by_cases hpa : p a
    · simp only [markFirst, if_pos hpa, List.mem_cons] at ht
      rcases ht with h1 | h2
      · exact h1 ▸ taskInv_mark_completed a now
      · exact h t (List.mem_cons_of_mem a h2)
    · simp only [markFirst, if_neg hpa, List.mem_cons] at ht
      rcases ht with h1 | h2
      · exact h1 ▸ h a (List.mem_cons_self a as)
      · exact ih (fun u hu => h u (List.mem_cons_of_mem a hu)) t h2

/-- Every task currently in the store satisfies the completion invariant. -/
def storeInv (m : ToDoListManager) : Prop :=
  ∀ t ∈ m.tasks, taskInv t

/-- A reachable store's backing file is either still missing or exactly
the last full save of the current state (every mutation saves). -/
def fileInv (m : ToDoListManager) : Prop :=
  m.file = .absent ∨ m.file = .parsed (saveData m.next_id m.tasks)

/-- The stores reachable through the published operations from a store
constructed against a missing backing file: `add_task`,
`mark_task_completed`, `clear_all_tasks`, and re-construction against the
store's own backing file (save happens inside every mutation). -/
inductive Reachable : ToDoListManager → Prop where
  | fresh : Reachable ToDoListManager.fresh
  | add {m : ToDoListManager} {title description priority : String}
      {due_date : Option String} {now : String} :
      Reachable m → Reachable (m.add_task title description priority due_date now).1
  | mark {m : ToDoListManager} {identifier : PyIdent} {now : String} :
      Reachable m → Reachable (m.mark_task_completed identifier now).1
  | clear {m : ToDoListManager} :
      Reachable m → Reachable m.clear_all_tasks
  | reload {m m2 : ToDoListManager} {now : String} :
      Reachable m → ToDoListManager.construct m.file now = .ok m2 → Reachable m2

/-- Re-constructing against a file holding a full save yields exactly the
saved counter and task list. -/
theorem construct_parsed_saveData (next_id : Int) (ts : List Task) (now : String) :
    ToDoListManager.construct (.parsed (saveData next_id ts)) now =
      .ok { next_id := next_id, tasks := ts, file := .parsed (saveData next_id ts) } := by
  simp [ToDoListManager.construct, load_tasks, loadBody_saveData, bind, Except.bind,
    pure, Except.pure]

theorem reachable_inv {m : ToDoListManager} (h : Reachable m) :
    storeInv m ∧ fileInv m := by
  induction h with
  | fresh => exact ⟨by intro t ht; simp [ToDoListManager.fresh] at ht, Or.inl rfl⟩
  | @add m title description priority due_date now _ ih =>
    obtain ⟨hstore, _⟩ := ih
    refine ⟨?_, Or.inr rfl⟩
    intro t ht
    have : t ∈ m.tasks ++
        [{ Task.init title description priority due_date now with id := some m.next_id }] := ht
    rcases List.mem_append.mp this with h1 | h2
    · exact hstore t h1
    · rw [List.mem_singleton.mp h2]
      simp [taskInv, Task.init]
  | @mark m identifier now _ ih =>
    obtain ⟨hstore, hfile⟩ := ih
    simp only [ToDoListManager.mark_task_completed]
    rcases hres : ToDoListManager.resolvePred identifier with _ | p
    · exact ⟨hstore, hfile⟩
    · by_cases hf : (m.tasks.find? p).isSome
      · simp only [hf, if_true]
        exact ⟨markFirst_taskInv p now m.tasks hstore, Or.inr rfl⟩
      · simp only [hf, if_false]
        exact ⟨hstore, hfile⟩
  | @clear m _ ih =>
    exact ⟨by intro t ht; simp [ToDoListManager.clear_all_tasks,
      ToDoListManager.save_tasks] at ht, Or.inr rfl⟩
  | @reload m m2 now _ hcon ih =>
    obtain ⟨hstore, hfile⟩ := ih
    rcases hfile with hfile | hfile
    · rw [hfile] at hcon
      have habs : ToDoListManager.construct FileState.absent now =
          .ok ToDoListManager.fresh := rfl
      rw [habs] at hcon
      cases hcon
      exact ⟨by intro t ht; simp [ToDoListManager.fresh] at ht, Or.inl rfl⟩
    · rw [hfile, construct_parsed_saveData] at hcon
      cases hcon
      exact ⟨hstore, Or.inr rfl⟩

/-- Claim C7: every task in a store reachable through the published
operations (construction, `add_task`, `mark_task_completed`,
`clear_all_tasks`, save/re-load) satisfies: `completed_at` is non-null
iff `status == "completed"`. -/
theorem C7_completed_at_iff_completed (m : ToDoListManager) (h : Reachable m) :
    ∀ t ∈ m.tasks, taskInv t :=
  (reachable_inv h).1

/-- Witness for C7: the task of a one-add store (pending, `completed_at`
null). -/
theorem C7_completed_at_iff_completed_witness :
    taskInv { id := some 1, title := "a", description := "", priority := "medium",
              due_date := none, status := "pending", created_at := "t",
              completed_at := none } :=
  C7_completed_at_iff_completed (ToDoListManager.fresh.add_task "a" "" "medium" none "t").1
    (Reachable.add Reachable.fresh) _ (by decide)

/-- When two lookup predicates both find the same task as their first
match, the first match sits at the same position, so marking the first
match of either predicate rewrites the list identically. -/
theorem markFirst_congr (p q : Task → Bool) (now : String) (ts : List Task)
    (t : Task) (hp : ts.find? p = some t) (hq : ts.find? q = some t)
    (hpt : p t = true) (hqt : q t = true) :
    markFirst p now ts = markFirst q now ts := by
  induction ts with
  | nil => simp at hp
  | cons a as ih =>
    by_cases hpa : p a <;> by_cases hqa : q a
    · simp [markFirst, hpa, hqa]
    · rw [List.find?_cons_of_pos as hpa] at hp
      cases hp
      exact absurd hqt (by simp [hqa])
    · rw [List.find?_cons_of_pos as hqa] at hq
      cases hq
      exact absurd hpt (by simp [hpa])
    · rw [List.find?_cons_of_neg as hpa] at hp
      rw [List.find?_cons_of_neg as hqa] at hq
      simp only [markFirst, if_neg hpa, if_neg hqa]
      rw [ih hp hq]

/-- Claim C2: `mark_task_completed` resolves an `int` identifier by id; a
string identifier that `int()` accepts by the parsed id; any other string
by case-insensitive title.  A hit marks the found task in place, persists,
and returns `True`; a miss returns `False` with the store (tasks, counter
and backing file) untouched.  Consequently a numeric id, its
numeric-string form, and the task's title in any case all locate the same
task when those lookups find it. -/
theorem C2_mark_resolution (m : ToDoListManager) (now : String) :
    (∀ n : Int, m.get_task_by_id n = none →
      m.mark_task_completed (.int n) now = (m, false)) ∧
    (∀ n : Int, (m.get_task_by_id n).isSome = true →
      m.mark_task_completed (.int n) now =
        (ToDoListManager.save_tasks
          { m with tasks := markFirst (fun t => t.id == some n) now m.tasks }, true)) ∧
    (∀ s : String, ∀ n : Int, pyIntOfString s = some n →
      m.mark_task_completed (.str s) now = m.mark_task_completed (.int n) now) ∧
    (∀ s : String, pyIntOfString s = none → m.get_task_by_title s = none →
      m.mark_task_completed (.str s) now = (m, false)) ∧
    (∀ s : String, pyIntOfString s = none → (m.get_task_by_title s).isSome = true →
      m.mark_task_completed (.str s) now =
        (ToDoListManager.save_tasks
          { m with
            tasks := markFirst (fun t => t.title.toLower == s.toLower) now m.tasks },
         true)) ∧
    (∀ n : Int, ∀ s : String, ∀ t : Task,
      m.get_task_by_id n = some t → pyIntOfString s = none →
      m.get_task_by_title s = some t →
      m.mark_task_completed (.int n) now = m.mark_task_completed (.str s) now) := by
  refine ⟨?_, ?_, ?_, ?_, ?_, ?_⟩
  · intro n h
    rw [ToDoListManager.get_task_by_id] at h
    simp [ToDoListManager.mark_task_completed, ToDoListManager.resolvePred, h]
  · intro n h
    rw [ToDoListManager.get_task_by_id] at h
    simp [ToDoListManager.mark_task_completed, ToDoListManager.resolvePred, h]
  · intro s n h
    simp [ToDoListManager.mark_task_completed, ToDoListManager.resolvePred, h]
  · intro s hparse h
    rw [ToDoListManager.get_task_by_title] at h
    simp [ToDoListManager.mark_task_completed, ToDoListManager.resolvePred, hparse, h]
  · intro s hparse h
    rw [ToDoListManager.get_task_by_title] at h
    simp [ToDoListManager.mark_task_completed, ToDoListManager.resolvePred, hparse, h]
  · intro n s t hid hparse htitle
    rw [ToDoListManager.get_task_by_id] at hid
    rw [ToDoListManager.get_task_by_title] at htitle
    have hpt := List.find?_some hid
    have hqt := List.find?_some htitle
    have hmf := markFirst_congr (fun u => u.id == some n)
      (fun u => u.title.toLower == s.toLower) now m.tasks t hid htitle hpt hqt
    simp [ToDoListManager.mark_task_completed, ToDoListManager.resolvePred,
      hparse, hid, htitle, hmf]

/-- Witness for C2: on a one-task store, completing by the numeric string
"1" is the same operation as completing by the int 1. -/
theorem C2_mark_resolution_witness :
    pyIntOfString "1" = some 1 ∧
    ((ToDoListManager.fresh.add_task "Buy Milk" "" "medium" none "t").1.mark_task_completed
        (.str "1") "t2" =
      (ToDoListManager.fresh.add_task "Buy Milk" "" "medium" none "t").1.mark_task_completed
        (.int 1) "t2") :=
  ⟨rfl,
   (C2_mark_resolution (ToDoListManager.fresh.add_task "Buy Milk" "" "medium" none "t").1
      "t2").2.2.1 "1" 1 rfl⟩

end Todo
